import Mathlib

/-!
Verification of the conference-user-creation web front end (`app.py`).

The file shallowly embeds the Python source: `str.strip()`, the three
`re.match` patterns used for validation (with Python's convention that a
final `$` also matches just before a single trailing newline), the built-in
`int()` on its ASCII fragment, the two form handlers `create_users` and
`remove_users`, and the two command generators `generate_create_command`
and `generate_remove_command`.  Flask's `request.form` is modelled as an
association list from field names to submitted values, with `.get` reading
the first binding.
-/

/-! ### Python string primitives -/

/-- The ASCII whitespace characters removed by Python's `str.strip()`
(the embedding covers the ASCII fragment of Python's whitespace set). -/
def isPyWs (c : Char) : Bool :=
  c == ' ' || c == '\t' || c == '\n' || c == '\r' || c == '\x0b' || c == '\x0c'

/-- `str.strip()` on a character list: leading and trailing whitespace removed. -/
def pyStripList (l : List Char) : List Char :=
  ((l.dropWhile isPyWs).reverse.dropWhile isPyWs).reverse

/-- Python's `str.strip()` with no arguments. -/
def pyStrip (s : String) : String :=
  String.mk (pyStripList s.data)

/-- The part of the subject that the anchored body of a Python regex ending in
`$` has to cover: `$` matches at the end of the string or just before a single
trailing newline, so such a newline is discarded before matching the body. -/
def dollarCore (l : List Char) : List Char :=
  if l.getLast? = some '\n' then l.dropLast else l

/-! ### The three validation patterns of `app.py` -/

/-- The character class `[a-zA-Z0-9_-]` of the conference-name pattern. -/
def isConfNameChar (c : Char) : Bool :=
  c.isAlpha || c.isDigit || c == '_' || c == '-'

/-- `re.match(r'^[c]+$', s)` for a one-class body `[c]+`: some nonempty run of
class characters covers everything up to the `$` anchor. -/
def reMatchClassPlus (p : Char → Bool) (s : String) : Bool :=
  let core := dollarCore s.data
  !core.isEmpty && core.all p

/-- The character class `[a-zA-Z0-9.-]` of the domain pattern. -/
def isDomainChar (c : Char) : Bool :=
  c.isAlpha || c.isDigit || c == '.' || c == '-'

/-- Existence of a match of the anchored body `[a-zA-Z0-9.-]+\.[a-zA-Z]{2,}`
against the whole list: it splits as `u ++ '.' :: v` with `u` a nonempty run
of domain characters and `v` at least two letters. -/
def domainCoreMatch (l : List Char) : Bool :=
  (List.range l.length).any fun i =>
    decide (1 ≤ i) && (l.take i).all isDomainChar && l.get? i == some '.' &&
      decide (i + 3 ≤ l.length) && (l.drop (i + 1)).all Char.isAlpha

/-- `re.match(r'^[a-zA-Z0-9.-]+\.[a-zA-Z]{2,}$', s)` with Python's `$` rule. -/
def matchesDomainPy (s : String) : Bool :=
  domainCoreMatch (dollarCore s.data)

/-- The domain pattern read as a plain anchored pattern over the whole string
(no trailing-newline allowance). -/
def matchesDomainStrict (s : String) : Bool :=
  domainCoreMatch s.data

/-- Hexadecimal digits `[0-9a-fA-F]` of the GUID pattern. -/
def isHexDigitA (c : Char) : Bool :=
  c.isDigit || ('a' ≤ c && c ≤ 'f') || ('A' ≤ c && c ≤ 'F')

/-- The anchored GUID body `[hex]{8}-[hex]{4}-[hex]{4}-[hex]{4}-[hex]{12}`
against the whole list: 36 characters, dashes at offsets 8, 13, 18, 23 and
hexadecimal digits everywhere else. -/
def guidCoreMatch (l : List Char) : Bool :=
  decide (l.length = 36) && (List.range 36).all fun i =>
    if i == 8 || i == 13 || i == 18 || i == 23 then l.get? i == some '-'
    else ((l.get? i).map isHexDigitA).getD false

/-- `re.match` of the 8-4-4-4-12 GUID pattern with Python's `$` rule. -/
def matchesGuidPy (s : String) : Bool :=
  guidCoreMatch (dollarCore s.data)

/-- The GUID pattern read as a plain anchored pattern over the whole string. -/
def matchesGuidStrict (s : String) : Bool :=
  guidCoreMatch s.data

/-! ### Python's `int()` -/

/-- The digit runs accepted inside a Python integer literal string: nonempty,
digits and underscores only, starting and ending with a digit, and never two
underscores in a row (each underscore sits between digits). -/
def validUnderscoredDigits (l : List Char) : Bool :=
  !l.isEmpty && l.all (fun c => c.isDigit || c == '_') &&
    ((l.head?.map Char.isDigit).getD false) &&
    ((l.getLast?.map Char.isDigit).getD false) &&
    !(l.zip l.tail).any (fun q => q.1 == '_' && q.2 == '_')

/-- Value of a list of decimal digits. -/
def digitsValue (l : List Char) : Nat :=
  l.foldl (fun a c => a * 10 + (c.toNat - 48)) 0

/-- Python's built-in `int(str)` on its ASCII fragment: optional surrounding
whitespace, an optional single sign, then decimal digits with single
underscores allowed between digits; `none` models the `ValueError` raised on
anything else. -/
def pyIntParse (s : String) : Option Int :=
  match pyStripList s.data with
  | [] => none
  | c :: rest =>
    let signed : Int × List Char :=
      if c = '+' then (1, rest)
      else if c = '-' then (-1, rest)
      else (1, c :: rest)
    if validUnderscoredDigits signed.2 then
      some (signed.1 * (digitsValue (signed.2.filter (fun d => d != '_')) : Int))
    else none

/-! ### Static configuration -/

/-- The `VALID_AZURE_LOCATIONS` list of `app.py`. -/
def VALID_AZURE_LOCATIONS : List String := [
  "East US", "East US 2", "West US", "West US 2", "West US 3",
  "Central US", "North Central US", "South Central US", "West Central US",
  "Canada Central", "Canada East",
  "Brazil South",
  "North Europe", "West Europe", "UK South", "UK West",
  "France Central", "Germany West Central", "Switzerland North",
  "Norway East", "Sweden Central",
  "Australia East", "Australia Southeast", "Australia Central",
  "Japan East", "Japan West", "Korea Central", "Korea South",
  "Southeast Asia", "East Asia",
  "Central India", "South India", "West India",
  "UAE North", "South Africa North"]

/-! ### Per-field validation, as in lines 53–74 and 109–117 of `app.py` -/

/-- Conference-name check (lines 55–58 and 111–114): required, then matched
against `^[a-zA-Z0-9_-]+$`. -/
def confNameErrors (conference_name : String) : List String :=
  if conference_name = "" then ["Conference Name is required"]
  else if reMatchClassPlus isConfNameChar conference_name = false then
    ["Conference Name must contain only letters, numbers, hyphens, and underscores"]
  else []

/-- User-count check (lines 60–65): `int()` with `ValueError` turned into a
message, then the 1..1000 range check. -/
def userCountErrors (user_count : String) : List String :=
  match pyIntParse user_count with
  | some n => if n < 1 ∨ 1000 < n then ["User Count must be between 1 and 1000"] else []
  | none => ["User Count must be a valid number"]

/-- Domain check (lines 67–68 and 116–117): only a nonempty domain is matched. -/
def domainErrors (domain : String) : List String :=
  if domain ≠ "" ∧ matchesDomainPy domain = false then
    ["Domain must be a valid domain name (e.g., company.com)"]
  else []

/-- Subscription-id check (lines 70–71): only a nonempty value is matched. -/
def subscriptionIdErrors (subscription_id : String) : List String :=
  if subscription_id ≠ "" ∧ matchesGuidPy subscription_id = false then
    ["Subscription ID must be a valid GUID format"]
  else []

/-- Location check (lines 73–74): membership in `VALID_AZURE_LOCATIONS`. -/
def locationErrors (location : String) : List String :=
  if location ≠ "" ∧ VALID_AZURE_LOCATIONS.contains location = false then
    ["Please select a valid Azure location"]
  else []

/-! ### Form data -/

/-- `request.form.get(key, dflt)`: the first submitted value bound to `key`,
or the default when the field is absent. -/
def formGet (form : List (String × String)) (key dflt : String) : String :=
  (form.lookup key).getD dflt

/-- The fields read by the create handler (lines 42–51 of `app.py`). -/
structure CreateForm where
  conference_name : String
  user_count : String
  domain : String
  password : String
  force_password_change : Bool
  create_resource_groups : Bool
  subscription_id : String
  location : String
  dry_run : Bool
  excel_output_path : String

/-- Lines 42–51: string fields are `strip()`ped (except `user_count`, taken
raw with default `'10'`) and boolean fields compare the raw submitted value
against the literal `'true'` (`request.form.get(k) == 'true'`, where an
absent field yields `None`). -/
def parseCreateForm (form : List (String × String)) : CreateForm where
  conference_name := pyStrip (formGet form "conference_name" "")
  user_count := formGet form "user_count" "10"
  domain := pyStrip (formGet form "domain" "")
  password := pyStrip (formGet form "password" "")
  force_password_change := form.lookup "force_password_change" == some "true"
  create_resource_groups := form.lookup "create_resource_groups" == some "true"
  subscription_id := pyStrip (formGet form "subscription_id" "")
  location := pyStrip (formGet form "location" "")
  dry_run := form.lookup "dry_run" == some "true"
  excel_output_path := pyStrip (formGet form "excel_output_path" "")

/-- The fields read by the remove handler (lines 102–107 of `app.py`). -/
structure RemoveForm where
  conference_name : String
  domain : String
  remove_groups : Bool
  remove_resource_groups : Bool
  force : Bool
  dry_run : Bool

/-- Lines 102–107 of `app.py`. -/
def parseRemoveForm (form : List (String × String)) : RemoveForm where
  conference_name := pyStrip (formGet form "conference_name" "")
  domain := pyStrip (formGet form "domain" "")
  remove_groups := form.lookup "remove_groups" == some "true"
  remove_resource_groups := form.lookup "remove_resource_groups" == some "true"
  force := form.lookup "force" == some "true"
  dry_run := form.lookup "dry_run" == some "true"

/-! ### Command generation (lines 136–186 of `app.py`) -/

/-- `generate_create_command` (lines 136–165): the sequence of `cmd += ...`
statements written as one concatenation, each optional clause guarded by the
same condition as in the source, with the `-SubscriptionId` and `-Location`
clauses nested inside the `create_resource_groups` branch. -/
def generate_create_command (conference_name user_count domain password : String)
    (force_password_change create_resource_groups : Bool)
    (subscription_id location : String) (dry_run : Bool)
    (excel_output_path : String) : String :=
  ".\\New-ConferenceUsers.ps1 -ConferenceName '" ++ conference_name ++
      "' -UserCount " ++ user_count ++
    (if domain ≠ "" then " -Domain '" ++ domain ++ "'" else "") ++
    (if password ≠ "" then " -Password '" ++ password ++ "'" else "") ++
    (if force_password_change then "" else " -ForcePasswordChange $false") ++
    (if create_resource_groups then
      " -CreateResourceGroups $true" ++
        (if subscription_id ≠ "" then " -SubscriptionId '" ++ subscription_id ++ "'" else "") ++
        (if location ≠ "" then " -Location '" ++ location ++ "'" else "")
    else "") ++
    (if excel_output_path ≠ "" then " -ExcelOutputPath '" ++ excel_output_path ++ "'" else "") ++
    (if dry_run then " -DryRun" else "")

/-- `generate_remove_command` (lines 167–186). -/
def generate_remove_command (conference_name domain : String)
    (remove_groups remove_resource_groups force dry_run : Bool) : String :=
  ".\\Remove-ConferenceUsers.ps1 -ConferenceName '" ++ conference_name ++ "'" ++
    (if domain ≠ "" then " -Domain '" ++ domain ++ "'" else "") ++
    (if remove_groups then "" else " -RemoveGroups $false") ++
    (if remove_resource_groups then " -RemoveResourceGroups $true" else "") ++
    (if force then " -Force" else "") ++
    (if dry_run then " -DryRun" else "")

/-- The optional clauses of the create command as a flat list in emission
order, each present exactly under its emission condition (the two resource
clauses additionally require `create_resource_groups`). -/
def createOptClauses (domain password : String)
    (force_password_change create_resource_groups : Bool)
    (subscription_id location : String) (dry_run : Bool)
    (excel_output_path : String) : List String :=
  (if domain ≠ "" then [" -Domain '" ++ domain ++ "'"] else []) ++
    (if password ≠ "" then [" -Password '" ++ password ++ "'"] else []) ++
    (if force_password_change then [] else [" -ForcePasswordChange $false"]) ++
    (if create_resource_groups then [" -CreateResourceGroups $true"] else []) ++
    (if create_resource_groups = true ∧ subscription_id ≠ "" then
      [" -SubscriptionId '" ++ subscription_id ++ "'"] else []) ++
    (if create_resource_groups = true ∧ location ≠ "" then
      [" -Location '" ++ location ++ "'"] else []) ++
    (if excel_output_path ≠ "" then [" -ExcelOutputPath '" ++ excel_output_path ++ "'"] else []) ++
    (if dry_run then [" -DryRun"] else [])

/-! ### The two POST handlers -/

/-- Outcome of a POST request: either the form is redisplayed with the
collected error messages (`render_template(..., form_data=request.form)`
after flashing each error), or the command-result page is rendered with the
generated command string. -/
inductive HandlerResult where
  | formError (errors : List String) (form : List (String × String))
  | success (command : String)
deriving DecidableEq

/-- The validation list of the create handler, in the order the checks run
(lines 53–74). -/
def createValidationErrors (f : CreateForm) : List String :=
  confNameErrors f.conference_name ++ userCountErrors f.user_count ++
    domainErrors f.domain ++ subscriptionIdErrors f.subscription_id ++
    locationErrors f.location

/-- The validation list of the remove handler (lines 109–117). -/
def removeValidationErrors (f : RemoveForm) : List String :=
  confNameErrors f.conference_name ++ domainErrors f.domain

/-- POST branch of `create_users` (lines 40–93): parse, validate, and either
redisplay the form with the errors or render the generated command. -/
def create_users (form : List (String × String)) : HandlerResult :=
  let f := parseCreateForm form
  let errors := createValidationErrors f
  if errors ≠ [] then .formError errors form
  else .success (generate_create_command f.conference_name f.user_count f.domain
    f.password f.force_password_change f.create_resource_groups f.subscription_id
    f.location f.dry_run f.excel_output_path)

/-- POST branch of `remove_users` (lines 100–132). -/
def remove_users (form : List (String × String)) : HandlerResult :=
  let f := parseRemoveForm form
  let errors := removeValidationErrors f
  if errors ≠ [] then .formError errors form
  else .success (generate_remove_command f.conference_name f.domain f.remove_groups
    f.remove_resource_groups f.force f.dry_run)

/-- Substring occurrence test, used to state counterexamples. -/
def strContains (s pat : String) : Bool :=
  (List.range (s.data.length + 1)).any fun i =>
    decide ((s.data.drop i).take pat.data.length = pat.data)

/-! ### Helper lemmas -/

lemma string_eq_empty_iff (s : String) : s = "" ↔ s.data = [] := by
  simp [String.ext_iff]

lemma string_join_cons (a : String) (l : List String) :
    String.join (a :: l) = a ++ String.join l := by
  apply String.ext
  simp [String.join_eq, String.data_append]

lemma string_join_append (A B : List String) :
    String.join (A ++ B) = String.join A ++ String.join B := by
  induction A with
  | nil =>
    apply String.ext
    simp [String.join_eq]
  | cons a t ih =>
    rw [List.cons_append, string_join_cons, string_join_cons, ih, String.append_assoc]

lemma string_join_ite_singleton (c : Prop) [Decidable c] (x : String) :
    String.join (if c then [x] else []) = if c then x else "" := by
  split_ifs with h
  · rw [string_join_cons]
    apply String.ext
    simp [String.join_eq]
  · rfl

lemma string_join_ite_singleton_neg (c : Prop) [Decidable c] (x : String) :
    String.join (if c then [] else [x]) = if c then "" else x := by
  split_ifs with h
  · rfl
  · rw [string_join_cons]
    apply String.ext
    simp [String.join_eq]

/-- A stripped string never ends in a whitespace character. -/
lemma pyStripList_getLast_not_ws (l : List Char) (c : Char)
    (h : (pyStripList l).getLast? = some c) : isPyWs c = false := by
  unfold pyStripList at h
  rw [List.getLast?_reverse] at h
  have h2 := List.head?_dropWhile_not isPyWs ((l.dropWhile isPyWs).reverse)
  simp [h] at h2
  exact h2

/-- On strip output, Python's `$`-before-trailing-newline allowance is vacuous. -/
lemma dollarCore_pyStrip (s : String) :
    dollarCore (pyStrip s).data = (pyStrip s).data := by
  unfold dollarCore
  split_ifs with h
  · have h2 := pyStripList_getLast_not_ws s.data '\n' h
    simp [isPyWs] at h2
  · rfl

lemma matchesDomainPy_pyStrip (s : String) :
    matchesDomainPy (pyStrip s) = matchesDomainStrict (pyStrip s) := by
  unfold matchesDomainPy matchesDomainStrict
  rw [dollarCore_pyStrip]

lemma matchesGuidPy_pyStrip (s : String) :
    matchesGuidPy (pyStrip s) = matchesGuidStrict (pyStrip s) := by
  unfold matchesGuidPy matchesGuidStrict
  rw [dollarCore_pyStrip]

lemma reMatchClassPlus_pyStrip (p : Char → Bool) (s : String) :
    reMatchClassPlus p (pyStrip s) = (!(pyStrip s).data.isEmpty && (pyStrip s).data.all p) := by
  unfold reMatchClassPlus
  rw [dollarCore_pyStrip]

/-- A pattern cannot begin a list that starts with an incomparable segment. -/
lemma not_pre_of_parts (pat a x : List Char) (h1 : ¬ pat <+: a) (h2 : ¬ a <+: pat) :
    ¬ pat <+: (a ++ x) := by
  intro hp
  rcases List.prefix_or_prefix_of_prefix hp (⟨x, rfl⟩ : a <+: a ++ x) with h | h
  · exact h1 h
  · exact h2 h

lemma confNameErrors_sub (cn e : String) (h : e ∈ confNameErrors cn) :
    e = "Conference Name is required" ∨
      e = "Conference Name must contain only letters, numbers, hyphens, and underscores" := by
  unfold confNameErrors at h
  split_ifs at h
  · simp at h
    exact Or.inl h
  · simp at h
    exact Or.inr h
  · simp at h

lemma userCountErrors_none (uc : String) (h : pyIntParse uc = none) :
    userCountErrors uc = ["User Count must be a valid number"] := by
  unfold userCountErrors
  rw [h]

lemma userCountErrors_some (uc : String) (n : Int) (h : pyIntParse uc = some n) :
    userCountErrors uc =
      if n < 1 ∨ 1000 < n then ["User Count must be between 1 and 1000"] else [] := by
  unfold userCountErrors
  rw [h]

lemma userCountErrors_sub (uc e : String) (h : e ∈ userCountErrors uc) :
    e = "User Count must be a valid number" ∨
      e = "User Count must be between 1 and 1000" := by
  rcases hp : pyIntParse uc with _ | n
  · rw [userCountErrors_none uc hp] at h
    simp at h
    exact Or.inl h
  · rw [userCountErrors_some uc n hp] at h
    split_ifs at h
    · simp at h
      exact Or.inr h
    · simp at h

lemma domainErrors_sub (d e : String) (h : e ∈ domainErrors d) :
    e = "Domain must be a valid domain name (e.g., company.com)" := by
  unfold domainErrors at h
  split_ifs at h <;> simp at h
  exact h

lemma subscriptionIdErrors_sub (sid e : String) (h : e ∈ subscriptionIdErrors sid) :
    e = "Subscription ID must be a valid GUID format" := by
  unfold subscriptionIdErrors at h
  split_ifs at h <;> simp at h
  exact h

lemma locationErrors_sub (loc e : String) (h : e ∈ locationErrors loc) :
    e = "Please select a valid Azure location" := by
  unfold locationErrors at h
  split_ifs at h <;> simp at h
  exact h

lemma mem_userCountErrors_invalid_iff (uc : String) :
    "User Count must be a valid number" ∈ userCountErrors uc ↔ pyIntParse uc = none := by
  rcases hp : pyIntParse uc with _ | n
  · rw [userCountErrors_none uc hp]
    simp
  · rw [userCountErrors_some uc n hp]
    split_ifs <;> simp

lemma mem_userCountErrors_range_iff (uc : String) :
    "User Count must be between 1 and 1000" ∈ userCountErrors uc ↔
      ∃ n, pyIntParse uc = some n ∧ (n < 1 ∨ 1000 < n) := by
  rcases hp : pyIntParse uc with _ | n
  · rw [userCountErrors_none uc hp]
    simp [hp]
  · rw [userCountErrors_some uc n hp]
    split_ifs with hc <;> simp [hp]
    · exact hc
    · omega

lemma create_users_formError (form : List (String × String))
    (h : createValidationErrors (parseCreateForm form) ≠ []) :
    create_users form = .formError (createValidationErrors (parseCreateForm form)) form := by
  unfold create_users
  simp [h]

lemma create_users_success (form : List (String × String))
    (h : createValidationErrors (parseCreateForm form) = []) :
    create_users form = .success (generate_create_command
      (parseCreateForm form).conference_name (parseCreateForm form).user_count
      (parseCreateForm form).domain (parseCreateForm form).password
      (parseCreateForm form).force_password_change
      (parseCreateForm form).create_resource_groups
      (parseCreateForm form).subscription_id (parseCreateForm form).location
      (parseCreateForm form).dry_run (parseCreateForm form).excel_output_path) := by
  unfold create_users
  simp [h]

lemma remove_users_formError (form : List (String × String))
    (h : removeValidationErrors (parseRemoveForm form) ≠ []) :
    remove_users form = .formError (removeValidationErrors (parseRemoveForm form)) form := by
  unfold remove_users
  simp [h]

lemma remove_users_success (form : List (String × String))
    (h : removeValidationErrors (parseRemoveForm form) = []) :
    remove_users form = .success (generate_remove_command
      (parseRemoveForm form).conference_name (parseRemoveForm form).domain
      (parseRemoveForm form).remove_groups (parseRemoveForm form).remove_resource_groups
      (parseRemoveForm form).force (parseRemoveForm form).dry_run) := by
  unfold remove_users
  simp [h]

/-- The create command is the mandatory head followed by the optional clauses
in emission order. -/
lemma gen_create_eq_clauses (cn uc d p : String) (fpc crg : Bool) (sid loc : String)
    (dr : Bool) (ep : String) :
    generate_create_command cn uc d p fpc crg sid loc dr ep =
      ".\\New-ConferenceUsers.ps1 -ConferenceName '" ++ cn ++ "' -UserCount " ++ uc ++
        String.join (createOptClauses d p fpc crg sid loc dr ep) := by
  unfold generate_create_command createOptClauses
  cases crg <;>
    simp [string_join_append, string_join_cons, string_join_ite_singleton,
      string_join_ite_singleton_neg, String.append_assoc,
      String.append_empty, String.empty_append]


/-! ### Claims -/

/-- Claim C1 (amended): for every create submission the generated command is
the mandatory `-ConferenceName`/`-UserCount` head followed by exactly the
optional clauses whose emission condition holds, in the fixed order Domain,
Password, ForcePasswordChange, CreateResourceGroups, SubscriptionId,
Location, ExcelOutputPath, DryRun — where the `-ForcePasswordChange $false`
clause appears iff `force_password_change` is NOT set, and the
`-SubscriptionId` / `-Location` clauses additionally require
`create_resource_groups` to be set. -/
theorem create_command_contains_exact_clauses (cn uc d p : String) (fpc crg : Bool)
    (sid loc : String) (dr : Bool) (ep : String) :
    generate_create_command cn uc d p fpc crg sid loc dr ep =
      ".\\New-ConferenceUsers.ps1 -ConferenceName '" ++ cn ++ "' -UserCount " ++ uc ++
        String.join (createOptClauses d p fpc crg sid loc dr ep) :=
  gen_create_eq_clauses cn uc d p fpc crg sid loc dr ep

/-- Claim C1, instance at a fully optioned input. -/
theorem create_command_contains_exact_clauses_witness :
    generate_create_command "C" "7" "d.com" "pw" false true "s" "l" true "e.xlsx" =
      ".\\New-ConferenceUsers.ps1 -ConferenceName '" ++ "C" ++ "' -UserCount " ++ "7" ++
        String.join (createOptClauses "d.com" "pw" false true "s" "l" true "e.xlsx") :=
  create_command_contains_exact_clauses "C" "7" "d.com" "pw" false true "s" "l" true "e.xlsx"

/-- Claim C1 counterexample: with `create_resource_groups` unset but a
nonempty subscription id, and `force_password_change` set, the generated
command contains no `-SubscriptionId` text (refuting "-SubscriptionId iff
subscription_id nonempty") and no `-ForcePasswordChange` text (refuting
"-ForcePasswordChange present iff force_password_change set"). -/
theorem create_command_claimed_flag_iff_refuted :
    generate_create_command "Conf" "10" "" "" true false
        "12345678-1234-1234-1234-123456789abc" "" false "" =
      ".\\New-ConferenceUsers.ps1 -ConferenceName 'Conf' -UserCount 10" ∧
    strContains ".\\New-ConferenceUsers.ps1 -ConferenceName 'Conf' -UserCount 10"
        "-SubscriptionId" = false ∧
    strContains ".\\New-ConferenceUsers.ps1 -ConferenceName 'Conf' -UserCount 10"
        "-ForcePasswordChange" = false ∧
    ("12345678-1234-1234-1234-123456789abc" : String) ≠ "" := by
  refine ⟨rfl, by decide, by decide, by decide⟩

/-- Claim C2 (amended): the conference-name check runs on the
whitespace-stripped submitted value; it passes iff that stripped value is
nonempty and consists only of `[a-zA-Z0-9_-]` characters.  In particular a
submission differing from a valid name only by surrounding whitespace (such
as a trailing newline) is accepted. -/
theorem conference_name_validation_iff (s : String) :
    confNameErrors (pyStrip s) = [] ↔
      pyStrip s ≠ "" ∧ (pyStrip s).data.all isConfNameChar = true := by
  unfold confNameErrors
  by_cases h : pyStrip s = ""
  · simp [h]
  · have hdata : (pyStrip s).data ≠ [] := fun hc => h ((string_eq_empty_iff _).mpr hc)
    have hemp : (pyStrip s).data.isEmpty = false := by
      cases hcc : (pyStrip s).data with
      | nil => exact absurd hcc hdata
      | cons a t => rfl
    rw [if_neg h, reMatchClassPlus_pyStrip]
    cases hall : (pyStrip s).data.all isConfNameChar <;> simp [h, hall, hemp]

/-- Claim C2, instance on a name with surrounding whitespace. -/
theorem conference_name_validation_iff_witness :
    confNameErrors (pyStrip " My-Conf_1 ") = [] ↔
      pyStrip " My-Conf_1 " ≠ "" ∧ (pyStrip " My-Conf_1 ").data.all isConfNameChar = true :=
  conference_name_validation_iff " My-Conf_1 "

/-- Claim C2 counterexample: `"Conf\n"` contains `'\n'`, a character outside
`[a-zA-Z0-9_-]`, yet the create handler accepts the submission and generates
a command, because the value is stripped before validation. -/
theorem conference_name_trailing_newline_slips_through :
    (∃ c, c ∈ ("Conf\n" : String).data ∧ isConfNameChar c = false) ∧
    create_users [("conference_name", "Conf\n"), ("user_count", "10")] =
      .success ".\\New-ConferenceUsers.ps1 -ConferenceName 'Conf' -UserCount 10 -ForcePasswordChange $false" := by
  constructor
  · exact ⟨'\n', by decide, by decide⟩
  · rfl

/-- Claim C3: the user-count messages appear in the create handler's error
list exactly when `int()` fails (non-numeric message) respectively parses a
value outside 1..1000 (range message); an error-free user-count check means
the string parsed to a value in 1..1000. -/
theorem user_count_validation_iff (f : CreateForm) :
    ("User Count must be a valid number" ∈ createValidationErrors f ↔
      pyIntParse f.user_count = none) ∧
    ("User Count must be between 1 and 1000" ∈ createValidationErrors f ↔
      ∃ n, pyIntParse f.user_count = some n ∧ (n < 1 ∨ 1000 < n)) ∧
    (userCountErrors f.user_count = [] →
      ∃ n, pyIntParse f.user_count = some n ∧ 1 ≤ n ∧ n ≤ 1000) := by
  refine ⟨?_, ?_, ?_⟩
  · constructor
    · intro h
      simp only [createValidationErrors, List.mem_append] at h
      rcases h with (((h | h) | h) | h) | h
      · rcases confNameErrors_sub _ _ h with h1 | h1 <;> exact absurd h1 (by decide)
      · exact (mem_userCountErrors_invalid_iff _).mp h
      · exact absurd (domainErrors_sub _ _ h) (by decide)
      · exact absurd (subscriptionIdErrors_sub _ _ h) (by decide)
      · exact absurd (locationErrors_sub _ _ h) (by decide)
    · intro h
      simp only [createValidationErrors, List.mem_append]
      exact Or.inl (Or.inl (Or.inl (Or.inr ((mem_userCountErrors_invalid_iff _).mpr h))))
  · constructor
    · intro h
      simp only [createValidationErrors, List.mem_append] at h
      rcases h with (((h | h) | h) | h) | h
      · rcases confNameErrors_sub _ _ h with h1 | h1 <;> exact absurd h1 (by decide)
      · exact (mem_userCountErrors_range_iff _).mp h
      · exact absurd (domainErrors_sub _ _ h) (by decide)
      · exact absurd (subscriptionIdErrors_sub _ _ h) (by decide)
      · exact absurd (locationErrors_sub _ _ h) (by decide)
    · intro h
      simp only [createValidationErrors, List.mem_append]
      exact Or.inl (Or.inl (Or.inl (Or.inr ((mem_userCountErrors_range_iff _).mpr h))))
  · intro h
    rcases hp : pyIntParse f.user_count with _ | n
    · rw [userCountErrors_none _ hp] at h
      simp at h
    · rw [userCountErrors_some _ n hp] at h
      split_ifs at h with hc
      exact ⟨n, rfl, by omega⟩

/-- Claim C3, instance: an error-free count parses in range. -/
theorem user_count_validation_iff_witness :
    ∃ n, pyIntParse (CreateForm.mk "Conf" "5" "" "" false false "" "" false "").user_count =
      some n ∧ 1 ≤ n ∧ n ≤ 1000 :=
  (user_count_validation_iff (CreateForm.mk "Conf" "5" "" "" false false "" "" false "")).2.2
    (by decide)

/-- Claim C4: on the stripped values the handlers validate, a nonempty domain
passes iff it matches the anchored pattern over the whole string, a nonempty
subscription id passes iff it matches the 8-4-4-4-12 GUID pattern, and empty
values always pass. -/
theorem domain_and_guid_validation (s t : String) :
    (pyStrip s = "" → domainErrors (pyStrip s) = []) ∧
    (pyStrip s ≠ "" →
      (domainErrors (pyStrip s) = [] ↔ matchesDomainStrict (pyStrip s) = true)) ∧
    (pyStrip t = "" → subscriptionIdErrors (pyStrip t) = []) ∧
    (pyStrip t ≠ "" →
      (subscriptionIdErrors (pyStrip t) = [] ↔ matchesGuidStrict (pyStrip t) = true)) := by
  refine ⟨?_, ?_, ?_, ?_⟩
  · intro h
    simp [domainErrors, h]
  · intro h
    unfold domainErrors
    rw [matchesDomainPy_pyStrip]
    cases hm : matchesDomainStrict (pyStrip s) <;> simp [h, hm]
  · intro h
    simp [subscriptionIdErrors, h]
  · intro h
    unfold subscriptionIdErrors
    rw [matchesGuidPy_pyStrip]
    cases hm : matchesGuidStrict (pyStrip t) <;> simp [h, hm]

/-- Claim C4, instance: a well-formed domain passes, a malformed subscription
id is characterised by the strict pattern. -/
theorem domain_and_guid_validation_witness :
    (domainErrors (pyStrip " company.com ") = [] ↔
      matchesDomainStrict (pyStrip " company.com ") = true) ∧
    (subscriptionIdErrors (pyStrip "nope") = [] ↔
      matchesGuidStrict (pyStrip "nope") = true) :=
  ⟨(domain_and_guid_validation " company.com " "nope").2.1 (by decide),
   (domain_and_guid_validation " company.com " "nope").2.2.2 (by decide)⟩

/-- Claim C5: whenever validation collects at least one error, each handler
redisplays the submitted form with exactly the accumulated error list, in
check order, and does not generate a command; with no errors it renders a
generated command. -/
theorem validation_failure_redisplays_form (form : List (String × String)) :
    (createValidationErrors (parseCreateForm form) ≠ [] →
      create_users form = .formError
        (confNameErrors (parseCreateForm form).conference_name ++
          userCountErrors (parseCreateForm form).user_count ++
          domainErrors (parseCreateForm form).domain ++
          subscriptionIdErrors (parseCreateForm form).subscription_id ++
          locationErrors (parseCreateForm form).location) form) ∧
    (createValidationErrors (parseCreateForm form) = [] →
      ∃ cmd, create_users form = .success cmd) ∧
    (removeValidationErrors (parseRemoveForm form) ≠ [] →
      remove_users form = .formError
        (confNameErrors (parseRemoveForm form).conference_name ++
          domainErrors (parseRemoveForm form).domain) form) ∧
    (removeValidationErrors (parseRemoveForm form) = [] →
      ∃ cmd, remove_users form = .success cmd) := by
  refine ⟨?_, ?_, ?_, ?_⟩
  · intro h
    exact create_users_formError form h
  · intro h
    exact ⟨_, create_users_success form h⟩
  · intro h
    exact remove_users_formError form h
  · intro h
    exact ⟨_, remove_users_success form h⟩

/-- Claim C5, instance: an invalid conference name redisplays the form with
exactly the character-set message. -/
theorem validation_failure_redisplays_form_witness :
    create_users [("conference_name", "bad name")] = .formError
      ["Conference Name must contain only letters, numbers, hyphens, and underscores"]
      [("conference_name", "bad name")] := by
  have h := (validation_failure_redisplays_form [("conference_name", "bad name")]).1 (by decide)
  exact h

/-- The fixed set of messages the create handler's validation can emit. -/
def createErrorMessages : List String := [
  "Conference Name is required",
  "Conference Name must contain only letters, numbers, hyphens, and underscores",
  "User Count must be a valid number",
  "User Count must be between 1 and 1000",
  "Domain must be a valid domain name (e.g., company.com)",
  "Subscription ID must be a valid GUID format",
  "Please select a valid Azure location"]

/-- Claim C6: the create handler's validation is a total function into error
lists — the only failure `int(user_count)` can raise is modelled by the
`none` result and is converted into exactly the message
'User Count must be a valid number'; every emitted message belongs to the
fixed message set, so validation never propagates an exception. -/
theorem int_failure_caught_as_message (f : CreateForm) :
    (pyIntParse f.user_count = none →
      "User Count must be a valid number" ∈ createValidationErrors f) ∧
    (∀ e ∈ createValidationErrors f, e ∈ createErrorMessages) := by
  constructor
  · intro h
    simp only [createValidationErrors, List.mem_append]
    exact Or.inl (Or.inl (Or.inl (Or.inr ((mem_userCountErrors_invalid_iff _).mpr h))))
  · intro e he
    simp only [createValidationErrors, List.mem_append] at he
    rcases he with (((h | h) | h) | h) | h
    · rcases confNameErrors_sub _ _ h with h1 | h1 <;> rw [h1] <;> decide
    · rcases userCountErrors_sub _ _ h with h1 | h1 <;> rw [h1] <;> decide
    · rw [domainErrors_sub _ _ h]
      decide
    · rw [subscriptionIdErrors_sub _ _ h]
      decide
    · rw [locationErrors_sub _ _ h]
      decide

/-- Claim C6, instance: a non-numeric count yields exactly the conversion
message. -/
theorem int_failure_caught_as_message_witness :
    "User Count must be a valid number" ∈
      createValidationErrors (CreateForm.mk "Conf" "abc" "" "" false false "" "" false "") :=
  (int_failure_caught_as_message
    (CreateForm.mk "Conf" "abc" "" "" false false "" "" false "")).1 (by decide)

/-- Claim C7: every boolean form field of either handler is set iff the
submitted value is exactly the string 'true'; any other value, and an absent
field, leave it unset. -/
theorem boolean_fields_strict_true (form : List (String × String)) :
    ((parseCreateForm form).force_password_change = true ↔
      form.lookup "force_password_change" = some "true") ∧
    ((parseCreateForm form).create_resource_groups = true ↔
      form.lookup "create_resource_groups" = some "true") ∧
    ((parseCreateForm form).dry_run = true ↔ form.lookup "dry_run" = some "true") ∧
    ((parseRemoveForm form).remove_groups = true ↔
      form.lookup "remove_groups" = some "true") ∧
    ((parseRemoveForm form).remove_resource_groups = true ↔
      form.lookup "remove_resource_groups" = some "true") ∧
    ((parseRemoveForm form).force = true ↔ form.lookup "force" = some "true") ∧
    ((parseRemoveForm form).dry_run = true ↔ form.lookup "dry_run" = some "true") := by
  unfold parseCreateForm parseRemoveForm
  simp [beq_iff_eq]

/-- Claim C7, instance: `'true'` sets a flag, `'True'` does not. -/
theorem boolean_fields_strict_true_witness :
    ((parseCreateForm [("dry_run", "true"), ("force", "True")]).dry_run = true ↔
      [("dry_run", "true"), ("force", "True")].lookup "dry_run" = some "true") ∧
    ((parseRemoveForm [("dry_run", "true"), ("force", "True")]).force = true ↔
      [("dry_run", "true"), ("force", "True")].lookup "force" = some "true") :=
  ⟨(boolean_fields_strict_true [("dry_run", "true"), ("force", "True")]).2.2.1,
   (boolean_fields_strict_true [("dry_run", "true"), ("force", "True")]).2.2.2.2.2.1⟩

/-- Claim C8: with `create_resource_groups` unset, the generated create
command does not depend on `subscription_id` or `location` at all (it equals
the command generated with both empty), and no emitted optional clause is a
`-SubscriptionId` or `-Location` clause. -/
theorem no_resource_clauses_without_flag (cn uc d p : String) (fpc : Bool)
    (sid loc : String) (dr : Bool) (ep : String) :
    generate_create_command cn uc d p fpc false sid loc dr ep =
      generate_create_command cn uc d p fpc false "" "" dr ep ∧
    ∀ c ∈ createOptClauses d p fpc false sid loc dr ep,
      ¬ (" -SubscriptionId".data <+: c.data) ∧ ¬ (" -Location".data <+: c.data) := by
  constructor
  · simp [generate_create_command]
  · intro c hc
    simp [createOptClauses] at hc
    rcases hc with ⟨h1, rfl⟩ | ⟨h1, rfl⟩ | ⟨h1, rfl⟩ | ⟨h1, rfl⟩ | ⟨h1, rfl⟩
    all_goals constructor
    all_goals try decide
    all_goals rw [String.data_append, String.data_append, List.append_assoc]
    all_goals exact not_pre_of_parts _ _ _ (by decide) (by decide)

/-- Claim C8, instance: the `-Domain` clause emitted while
`create_resource_groups` is unset is not a resource clause. -/
theorem no_resource_clauses_without_flag_witness :
    ¬ (" -SubscriptionId".data <+: (" -Domain '" ++ "example.com" ++ "'").data) ∧
    ¬ (" -Location".data <+: (" -Domain '" ++ "example.com" ++ "'").data) :=
  (no_resource_clauses_without_flag "C" "5" "example.com" "" false "x" "y" false "").2
    (" -Domain '" ++ "example.com" ++ "'") (by decide)

/-- Claim C9: both generators splice every string parameter verbatim between
single quotes — the command always decomposes around the unchanged parameter,
with no escaping, so a parameter containing a single quote keeps it. -/
theorem parameters_quoted_verbatim (cn uc d p : String) (fpc crg : Bool)
    (sid loc : String) (dr : Bool) (ep : String) (rg rrg fc : Bool) :
    (∃ b, generate_create_command cn uc d p fpc crg sid loc dr ep =
      ".\\New-ConferenceUsers.ps1 -ConferenceName '" ++ cn ++ "' -UserCount " ++ uc ++ b) ∧
    (d ≠ "" → ∃ a b, generate_create_command cn uc d p fpc crg sid loc dr ep =
      a ++ (" -Domain '" ++ d ++ "'") ++ b) ∧
    (p ≠ "" → ∃ a b, generate_create_command cn uc d p fpc crg sid loc dr ep =
      a ++ (" -Password '" ++ p ++ "'") ++ b) ∧
    (crg = true → sid ≠ "" → ∃ a b, generate_create_command cn uc d p fpc crg sid loc dr ep =
      a ++ (" -SubscriptionId '" ++ sid ++ "'") ++ b) ∧
    (crg = true → loc ≠ "" → ∃ a b, generate_create_command cn uc d p fpc crg sid loc dr ep =
      a ++ (" -Location '" ++ loc ++ "'") ++ b) ∧
    (ep ≠ "" → ∃ a b, generate_create_command cn uc d p fpc crg sid loc dr ep =
      a ++ (" -ExcelOutputPath '" ++ ep ++ "'") ++ b) ∧
    (∃ b, generate_remove_command cn d rg rrg fc dr =
      ".\\Remove-ConferenceUsers.ps1 -ConferenceName '" ++ cn ++ "'" ++ b) ∧
    (d ≠ "" → ∃ a b, generate_remove_command cn d rg rrg fc dr =
      a ++ (" -Domain '" ++ d ++ "'") ++ b) := by
  refine ⟨?_, ?_, ?_, ?_, ?_, ?_, ?_, ?_⟩
  · refine ⟨(if d ≠ "" then " -Domain '" ++ d ++ "'" else "") ++
      (if p ≠ "" then " -Password '" ++ p ++ "'" else "") ++
      (if fpc then "" else " -ForcePasswordChange $false") ++
      (if crg then " -CreateResourceGroups $true" ++
        (if sid ≠ "" then " -SubscriptionId '" ++ sid ++ "'" else "") ++
        (if loc ≠ "" then " -Location '" ++ loc ++ "'" else "") else "") ++
      (if ep ≠ "" then " -ExcelOutputPath '" ++ ep ++ "'" else "") ++
      (if dr then " -DryRun" else ""), ?_⟩
    simp [generate_create_command, String.append_assoc]
  · intro hd
    refine ⟨".\\New-ConferenceUsers.ps1 -ConferenceName '" ++ cn ++ "' -UserCount " ++ uc,
      (if p ≠ "" then " -Password '" ++ p ++ "'" else "") ++
      (if fpc then "" else " -ForcePasswordChange $false") ++
      (if crg then " -CreateResourceGroups $true" ++
        (if sid ≠ "" then " -SubscriptionId '" ++ sid ++ "'" else "") ++
        (if loc ≠ "" then " -Location '" ++ loc ++ "'" else "") else "") ++
      (if ep ≠ "" then " -ExcelOutputPath '" ++ ep ++ "'" else "") ++
      (if dr then " -DryRun" else ""), ?_⟩
    simp [generate_create_command, hd, String.append_assoc]
  · intro hp
    refine ⟨".\\New-ConferenceUsers.ps1 -ConferenceName '" ++ cn ++ "' -UserCount " ++ uc ++
      (if d ≠ "" then " -Domain '" ++ d ++ "'" else ""),
      (if fpc then "" else " -ForcePasswordChange $false") ++
      (if crg then " -CreateResourceGroups $true" ++
        (if sid ≠ "" then " -SubscriptionId '" ++ sid ++ "'" else "") ++
        (if loc ≠ "" then " -Location '" ++ loc ++ "'" else "") else "") ++
      (if ep ≠ "" then " -ExcelOutputPath '" ++ ep ++ "'" else "") ++
      (if dr then " -DryRun" else ""), ?_⟩
    simp [generate_create_command, hp, String.append_assoc]
  · intro hcrg hsid
    refine ⟨".\\New-ConferenceUsers.ps1 -ConferenceName '" ++ cn ++ "' -UserCount " ++ uc ++
      (if d ≠ "" then " -Domain '" ++ d ++ "'" else "") ++
      (if p ≠ "" then " -Password '" ++ p ++ "'" else "") ++
      (if fpc then "" else " -ForcePasswordChange $false") ++
      " -CreateResourceGroups $true",
      (if loc ≠ "" then " -Location '" ++ loc ++ "'" else "") ++
      (if ep ≠ "" then " -ExcelOutputPath '" ++ ep ++ "'" else "") ++
      (if dr then " -DryRun" else ""), ?_⟩
    simp [generate_create_command, hcrg, hsid, String.append_assoc]
  · intro hcrg hloc
    refine ⟨".\\New-ConferenceUsers.ps1 -ConferenceName '" ++ cn ++ "' -UserCount " ++ uc ++
      (if d ≠ "" then " -Domain '" ++ d ++ "'" else "") ++
      (if p ≠ "" then " -Password '" ++ p ++ "'" else "") ++
      (if fpc then "" else " -ForcePasswordChange $false") ++
      " -CreateResourceGroups $true" ++
      (if sid ≠ "" then " -SubscriptionId '" ++ sid ++ "'" else ""),
      (if ep ≠ "" then " -ExcelOutputPath '" ++ ep ++ "'" else "") ++
      (if dr then " -DryRun" else ""), ?_⟩
    simp [generate_create_command, hcrg, hloc, String.append_assoc]
  · intro hep
    refine ⟨".\\New-ConferenceUsers.ps1 -ConferenceName '" ++ cn ++ "' -UserCount " ++ uc ++
      (if d ≠ "" then " -Domain '" ++ d ++ "'" else "") ++
      (if p ≠ "" then " -Password '" ++ p ++ "'" else "") ++
      (if fpc then "" else " -ForcePasswordChange $false") ++
      (if crg then " -CreateResourceGroups $true" ++
        (if sid ≠ "" then " -SubscriptionId '" ++ sid ++ "'" else "") ++
        (if loc ≠ "" then " -Location '" ++ loc ++ "'" else "") else ""),
      (if dr then " -DryRun" else ""), ?_⟩
    simp [generate_create_command, hep, String.append_assoc]
  · refine ⟨(if d ≠ "" then " -Domain '" ++ d ++ "'" else "") ++
      (if rg then "" else " -RemoveGroups $false") ++
      (if rrg then " -RemoveResourceGroups $true" else "") ++
      (if fc then " -Force" else "") ++
      (if dr then " -DryRun" else ""), ?_⟩
    simp [generate_remove_command, String.append_assoc]
  · intro hd
    refine ⟨".\\Remove-ConferenceUsers.ps1 -ConferenceName '" ++ cn ++ "'",
      (if rg then "" else " -RemoveGroups $false") ++
      (if rrg then " -RemoveResourceGroups $true" else "") ++
      (if fc then " -Force" else "") ++
      (if dr then " -DryRun" else ""), ?_⟩
    simp [generate_remove_command, hd, String.append_assoc]

/-- Claim C9, instance: parameters containing a single quote are spliced in
unchanged. -/
theorem parameters_quoted_verbatim_witness :
    (∃ a b, generate_create_command "Conf" "5" "d'm.com" "p'w" false true
        "s'id" "l'oc" false "e'p" = a ++ (" -Domain '" ++ "d'm.com" ++ "'") ++ b) ∧
    (∃ a b, generate_create_command "Conf" "5" "d'm.com" "p'w" false true
        "s'id" "l'oc" false "e'p" = a ++ (" -SubscriptionId '" ++ "s'id" ++ "'") ++ b) :=
  ⟨(parameters_quoted_verbatim "Conf" "5" "d'm.com" "p'w" false true "s'id" "l'oc"
      false "e'p" false false false).2.1 (by decide),
   (parameters_quoted_verbatim "Conf" "5" "d'm.com" "p'w" false true "s'id" "l'oc"
      false "e'p" false false false).2.2.2.1 rfl (by decide)⟩

/-- Claim C10: a successful create submission embeds the raw submitted
`user_count` string (default `'10'` when the field is absent) after
`-UserCount`, not a re-rendered integer; success also guarantees that this
raw string parses to a value in 1..1000. -/
theorem raw_user_count_in_command (form : List (String × String)) (cmd : String)
    (h : create_users form = .success cmd) :
    (∃ b, cmd = ".\\New-ConferenceUsers.ps1 -ConferenceName '" ++
      pyStrip (formGet form "conference_name" "") ++ "' -UserCount " ++
      formGet form "user_count" "10" ++ b) ∧
    (∃ n, pyIntParse (formGet form "user_count" "10") = some n ∧ 1 ≤ n ∧ n ≤ 1000) ∧
    (form.lookup "user_count" = none → formGet form "user_count" "10" = "10") := by
  have herr : createValidationErrors (parseCreateForm form) = [] := by
    by_contra hne
    rw [create_users_formError form hne] at h
    exact HandlerResult.noConfusion h
  have hcmd : cmd = generate_create_command
      (parseCreateForm form).conference_name (parseCreateForm form).user_count
      (parseCreateForm form).domain (parseCreateForm form).password
      (parseCreateForm form).force_password_change
      (parseCreateForm form).create_resource_groups
      (parseCreateForm form).subscription_id (parseCreateForm form).location
      (parseCreateForm form).dry_run (parseCreateForm form).excel_output_path := by
    rw [create_users_success form herr] at h
    exact (HandlerResult.success.inj h).symm
  have hcount : userCountErrors (parseCreateForm form).user_count = [] := by
    rcases List.append_eq_nil.mp
      (List.append_eq_nil.mp (List.append_eq_nil.mp
        (List.append_eq_nil.mp herr).1).1).1 with ⟨h1, h2⟩
    exact h2
  refine ⟨?_, ?_, ?_⟩
  · exact ⟨String.join (createOptClauses (parseCreateForm form).domain
      (parseCreateForm form).password (parseCreateForm form).force_password_change
      (parseCreateForm form).create_resource_groups (parseCreateForm form).subscription_id
      (parseCreateForm form).location (parseCreateForm form).dry_run
      (parseCreateForm form).excel_output_path),
      by rw [hcmd, gen_create_eq_clauses]; rfl⟩
  · rcases hp : pyIntParse (parseCreateForm form).user_count with _ | n
    · rw [userCountErrors_none _ hp] at hcount
      exact absurd hcount (by simp)
    · rw [userCountErrors_some _ n hp] at hcount
      split_ifs at hcount with hc
      exact ⟨n, hp, by omega⟩
  · intro hnone
    simp [formGet, hnone]

/-- Claim C10, instance: the non-canonical count string `'0010'` (value 10)
appears verbatim in the generated command. -/
theorem raw_user_count_in_command_witness :
    (∃ b, ".\\New-ConferenceUsers.ps1 -ConferenceName 'Conf' -UserCount 0010 -ForcePasswordChange $false" =
      ".\\New-ConferenceUsers.ps1 -ConferenceName '" ++
        pyStrip (formGet [("conference_name", "Conf"), ("user_count", "0010")] "conference_name" "") ++
        "' -UserCount " ++
        formGet [("conference_name", "Conf"), ("user_count", "0010")] "user_count" "10" ++ b) ∧
    (∃ n, pyIntParse
        (formGet [("conference_name", "Conf"), ("user_count", "0010")] "user_count" "10") =
      some n ∧ 1 ≤ n ∧ n ≤ 1000) := by
  have h := raw_user_count_in_command [("conference_name", "Conf"), ("user_count", "0010")]
    ".\\New-ConferenceUsers.ps1 -ConferenceName 'Conf' -UserCount 0010 -ForcePasswordChange $false"
    (by decide)
  exact ⟨h.1, h.2.1⟩
